import Mathlib

/-!
Verification development for the libosrmc C boundary layer
(libosrmc/osrmc.cc): a shallow embedding of the JSON value tree, the
serializer escaping, the error adapter, the service-call wrappers and the
per-field response accessors, together with theorems about their
error/sentinel behavior.

Conventions of the embedding:
* C pointers that may be null are `Option`; dereferencing a null pointer
  (undefined behavior in the C source) is the explicit outcome `crash`.
* The trailing `osrmc_error_t* error` out-parameter is modelled by a
  `Bool` (`errSlot`): `true` means the caller passed a non-null slot.
  A guarded store (`if (error) *error = e`) writes the record only when
  the slot is non-null; an unguarded store (`*error = e`) crashes when
  the slot is null.
* C++ exceptions thrown while navigating the tree are values of `CppExn`
  propagated in `Except`; every boundary function catches them and turns
  them into an `Exception` error record via `osrmc_error_from_exception`.
* Doubles never participate in arithmetic here, so they are modelled by
  the three cases the wrapper distinguishes: a finite value, positive
  infinity, and NaN.
-/

set_option autoImplicit false

namespace Osrmc

/-- Double values as the wrapper observes them: finite, ` +Infinity`
(`std::numeric_limits<double>::infinity()`), or NaN
(`std::numeric_limits<double>::quiet_NaN()`). -/
inductive JDouble where
  | fin (x : ℚ)
  | inf
  | nan
  deriving DecidableEq, Repr

/-- Modelled from the spec: the engine JSON value type `osrm::json::Value`
(`osrm/json_container.hpp` is an engine header, not part of this
repository). Spec section 3 lists the variant alternatives as Null,
Bool-true, Bool-false, Number (double), String, Array, Object, in that
order; hence a default-constructed value (the value `std::map::operator[]`
inserts for a missing key) holds the first alternative, Null. An Object is
a string-keyed mapping, modelled as an association list with unique keys. -/
inductive JValue where
  | null
  | vtrue
  | vfalse
  | num (x : JDouble)
  | str (s : String)
  | arr (vs : List JValue)
  | obj (kvs : List (String × JValue))

/-- The `values` member of `osrm::json::Object`: a string-keyed map. -/
abbrev JObject := List (String × JValue)

/-- Map lookup, as used by `values.find(key)` / `values.at(key)`. -/
def lookupKey : JObject → String → Option JValue
  | [], _ => none
  | (k, v) :: rest, key => if k = key then some v else lookupKey rest key

/-- Map `operator[]`: returns the mapped value, default-inserting a
`Null` (the default-constructed `Value`, see `JValue`) when the key is
missing. Returns the value together with the possibly-extended map. -/
def bracketKey (kvs : JObject) (key : String) : JValue × JObject :=
  match lookupKey kvs key with
  | some v => (v, kvs)
  | none => (JValue.null, kvs ++ [(key, JValue.null)])

/-- Replace the value stored under an existing key (used to write back an
in-place mutation of a subobject reached through a reference). -/
def setKey : JObject → String → JValue → JObject
  | [], _, _ => []
  | (k, v) :: rest, key, newV =>
      if k = key then (k, newV) :: rest else (k, v) :: setKey rest key newV

/-- A thrown C++ exception, reduced to the `what()` text the wrapper
forwards into error records. The concrete texts are implementation
defined; no claim depends on them. -/
structure CppExn where
  what : String
  deriving DecidableEq, Repr

/-- `std::bad_variant_access`, thrown by `std::get` on a wrong variant. -/
def bad_variant_access_exn : CppExn := ⟨"bad variant access"⟩

/-- `std::out_of_range`, thrown by `std::map::at` on a missing key. -/
def map_at_exn : CppExn := ⟨"map at: key not found"⟩

/-- `std::out_of_range`, thrown by `std::vector::at` past the end. -/
def vector_at_exn : CppExn := ⟨"vector at: index out of range"⟩

/-- `std::get<osrm::json::Array>` on a `Value`. -/
def getArr : JValue → Except CppExn (List JValue)
  | .arr vs => .ok vs
  | _ => .error bad_variant_access_exn

/-- `std::get<osrm::json::Object>` on a `Value`. -/
def getObj : JValue → Except CppExn JObject
  | .obj kvs => .ok kvs
  | _ => .error bad_variant_access_exn

/-- `std::get<osrm::json::String>` on a `Value`. -/
def getStr : JValue → Except CppExn String
  | .str s => .ok s
  | _ => .error bad_variant_access_exn

/-- `std::get<osrm::json::Number>` on a `Value`. -/
def getNum : JValue → Except CppExn JDouble
  | .num x => .ok x
  | _ => .error bad_variant_access_exn

/-- `values.at(key)` on a JSON object: throws `std::out_of_range` when
the key is missing. -/
def mapAt (kvs : JObject) (key : String) : Except CppExn JValue :=
  match lookupKey kvs key with
  | some v => .ok v
  | none => .error map_at_exn

/-- `values.at(i)` on a JSON array: throws `std::out_of_range` past the
end. -/
def vectorAt (vs : List JValue) (i : Nat) : Except CppExn JValue :=
  match vs[i]? with
  | some v => .ok v
  | none => .error vector_at_exn

/-- Outcome of a C function that takes no error out-parameter: either a
return value or undefined behavior (`crash`, e.g. a null dereference). -/
inductive CVal (α : Type) where
  | ok (ret : α)
  | crash

/-- Unchecked `operator[]` on a `std::vector`: out of range is undefined
behavior. -/
def vectorIndex (vs : List JValue) (i : Nat) : CVal JValue :=
  match vs[i]? with
  | some v => CVal.ok v
  | none => CVal.crash

/-- The two-field error record `struct osrmc_error`. -/
structure osrmc_error where
  code : String
  message : String
  deriving DecidableEq, Repr

/-- Outcome of a C function with a trailing error out-parameter: a return
value together with the record stored into the slot (if any), or
undefined behavior. -/
inductive CRes (α : Type) where
  | ok (ret : α) (err : Option osrmc_error)
  | crash

/-- The returned holder tree of an accessor outcome (accessors return the
pair of extracted value and the tree held by the response after the
call). -/
def cresTree {α : Type} : CRes (α × Option JObject) → Option JObject
  | .ok (_, t) _ => t
  | .crash => none

/-- The caller-observable part of an accessor outcome: the returned value
and the error record, forgetting the held tree. -/
def cresObs {α : Type} : CRes (α × Option JObject) → CRes α
  | .ok (a, _) e => .ok a e
  | .crash => .crash

/-! ## Serializer string escaping -/

/-- The `hex_digits` table of `osrmc_json_append_escaped`. -/
def json_hex_digits : List Char := "0123456789abcdef".toList

/-- Index into the `hex_digits` table (all uses are below 16). -/
def json_hex_digit (n : Nat) : Char := json_hex_digits.getD n '0'

/-- One iteration of the `switch` in `osrmc_json_append_escaped`: the
chunk appended to the output for one input byte. Byte values: 34 is the
double quote, 92 the backslash, 8 backspace, 12 form feed, 10 newline,
13 carriage return, 9 tab; 32 is `JSON_CONTROL_CHAR_THRESHOLD` and 15 is
`JSON_HEX_MASK`. -/
def osrmc_json_escape_byte (ch : Nat) : String :=
  if ch = 34 then "\\\""
  else if ch = 92 then "\\\\"
  else if ch = 8 then "\\b"
  else if ch = 12 then "\\f"
  else if ch = 10 then "\\n"
  else if ch = 13 then "\\r"
  else if ch = 9 then "\\t"
  else if ch < 32 then
    (("\\u00".push (json_hex_digit ((ch >>> 4) &&& 15))).push (json_hex_digit (ch &&& 15)))
  else
    String.singleton (Char.ofNat ch)

/-- `osrmc_json_append_escaped`: appends the escaped form of every input
byte to the output string. -/
def osrmc_json_append_escaped : String → List Nat → String
  | out, [] => out
  | out, ch :: rest => osrmc_json_append_escaped (out ++ osrmc_json_escape_byte ch) rest

/-- The escaping table as the spec words it: the double quote becomes
backslash-quote, backslash doubles, backspace, form feed, newline,
carriage return and tab get their two-character escapes, any other byte
below 0x20 becomes a lowercase-hex `u00XX` escape, and every other byte
passes through unchanged. -/
def spec_escape_byte (ch : Nat) : String :=
  if ch = 34 then "\\\""
  else if ch = 92 then "\\\\"
  else if ch = 8 then "\\b"
  else if ch = 12 then "\\f"
  else if ch = 10 then "\\n"
  else if ch = 13 then "\\r"
  else if ch = 9 then "\\t"
  else if ch < 32 then
    (("\\u00".push (json_hex_digit (ch / 16))).push (json_hex_digit (ch % 16)))
  else
    String.singleton (Char.ofNat ch)

/-- The escaped rendering of a whole byte string per the spec table. -/
def spec_escaped : List Nat → String
  | [] => ""
  | ch :: rest => spec_escape_byte ch ++ spec_escaped rest

/-! ## Error adapter -/

/-- `osrmc_error_from_exception`: stores a generic `Exception` record,
guarded by a null check of the slot. -/
def osrmc_error_from_exception (e : CppExn) (errSlot : Bool) : Option osrmc_error :=
  if errSlot then some ⟨"Exception", e.what⟩ else none

/-- `osrmc_error_from_json`: extracts `code` and `message` from an engine
error object (through `operator[]`, hence `std::get<String>`), replaces
an empty code by `Unknown`, and falls back to the exception path when an
extraction throws. Returns early with no record when the slot is null. -/
def osrmc_error_from_json (json : JObject) (errSlot : Bool) : Option osrmc_error :=
  if errSlot = false then none
  else
    match getStr (bracketKey json "code").1 with
    | .error e => osrmc_error_from_exception e errSlot
    | .ok code =>
      match getStr (bracketKey (bracketKey json "code").2 "message").1 with
      | .error e => osrmc_error_from_exception e errSlot
      | .ok message =>
        some ⟨if code = "" then "Unknown" else code, message⟩

/-! ## Error record accessors -/

/-- `osrmc_error_code`: `return error->code.c_str()`, an unconditional
dereference of the record handle. -/
def osrmc_error_code : Option osrmc_error → CVal String
  | none => CVal.crash
  | some e => CVal.ok e.code

/-- `osrmc_error_message`: `return error->message.c_str()`, an
unconditional dereference of the record handle. -/
def osrmc_error_message : Option osrmc_error → CVal String
  | none => CVal.crash
  | some e => CVal.ok e.message

/-- `osrmc_error_destruct`: `if (error) delete error;` — a checked
no-op on a null record. -/
def osrmc_error_destruct : Option osrmc_error → CVal Unit
  | none => CVal.ok ()
  | some _ => CVal.ok ()

/-! ## Service call wrappers

The engine (`osrm::OSRM`) is an external collaborator: each wrapper model
takes the status and the result variant the engine left in the result
slot as inputs. `ResultT` is reduced to the two alternatives the wrapper
distinguishes, a JSON object and a byte string. -/

/-- `osrm::Status`. -/
inductive OsrmStatus where
  | statusOk
  | statusError
  deriving DecidableEq, Repr

/-- The engine result variant (`osrm::engine::api::ResultT`), reduced to
the alternatives the wrapper inspects. -/
inductive EngineResult where
  | obj (o : JObject)
  | bytes (s : String)

/-- `osrmc_nearest`: validates the handles, dispatches, and wraps an OK
object result into a response holder; an OK status with an unexpected
variant is the defensive `InvalidResponse` path. -/
def osrmc_nearest (osrm : Bool) (params : Bool) (status : OsrmStatus)
    (result : EngineResult) (errSlot : Bool) : CRes (Option JObject) :=
  if osrm = false ∨ params = false then
    .ok none (if errSlot then some ⟨"InvalidArgument", "OSRM instance and params must not be null"⟩ else none)
  else
    match status, result with
    | .statusOk, .obj o => .ok (some o) none
    | .statusOk, _ =>
        .ok none (if errSlot then some ⟨"InvalidResponse", "Unexpected response type"⟩ else none)
    | .statusError, .obj o => .ok none (osrmc_error_from_json o errSlot)
    | .statusError, _ =>
        .ok none (if errSlot then some ⟨"NearestError", "Nearest request failed"⟩ else none)

/-- `osrmc_route` (the route holder also records the geometries option,
irrelevant to the claims settled here). -/
def osrmc_route (osrm : Bool) (params : Bool) (status : OsrmStatus)
    (result : EngineResult) (errSlot : Bool) : CRes (Option JObject) :=
  if osrm = false ∨ params = false then
    .ok none (if errSlot then some ⟨"InvalidArgument", "OSRM instance and params must not be null"⟩ else none)
  else
    match status, result with
    | .statusOk, .obj o => .ok (some o) none
    | .statusOk, _ =>
        .ok none (if errSlot then some ⟨"InvalidResponse", "Unexpected response type"⟩ else none)
    | .statusError, .obj o => .ok none (osrmc_error_from_json o errSlot)
    | .statusError, _ =>
        .ok none (if errSlot then some ⟨"RouteError", "Route request failed"⟩ else none)

/-- `osrmc_table`. -/
def osrmc_table (osrm : Bool) (params : Bool) (status : OsrmStatus)
    (result : EngineResult) (errSlot : Bool) : CRes (Option JObject) :=
  if osrm = false ∨ params = false then
    .ok none (if errSlot then some ⟨"InvalidArgument", "OSRM instance and params must not be null"⟩ else none)
  else
    match status, result with
    | .statusOk, .obj o => .ok (some o) none
    | .statusOk, _ =>
        .ok none (if errSlot then some ⟨"InvalidResponse", "Unexpected response type"⟩ else none)
    | .statusError, .obj o => .ok none (osrmc_error_from_json o errSlot)
    | .statusError, _ =>
        .ok none (if errSlot then some ⟨"TableError", "Table request failed"⟩ else none)

/-- `osrmc_match`. -/
def osrmc_match (osrm : Bool) (params : Bool) (status : OsrmStatus)
    (result : EngineResult) (errSlot : Bool) : CRes (Option JObject) :=
  if osrm = false ∨ params = false then
    .ok none (if errSlot then some ⟨"InvalidArgument", "OSRM instance and params must not be null"⟩ else none)
  else
    match status, result with
    | .statusOk, .obj o => .ok (some o) none
    | .statusOk, _ =>
        .ok none (if errSlot then some ⟨"InvalidResponse", "Unexpected response type"⟩ else none)
    | .statusError, .obj o => .ok none (osrmc_error_from_json o errSlot)
    | .statusError, _ =>
        .ok none (if errSlot then some ⟨"MatchError", "Match request failed"⟩ else none)

/-- `osrmc_trip`. -/
def osrmc_trip (osrm : Bool) (params : Bool) (status : OsrmStatus)
    (result : EngineResult) (errSlot : Bool) : CRes (Option JObject) :=
  if osrm = false ∨ params = false then
    .ok none (if errSlot then some ⟨"InvalidArgument", "OSRM instance and params must not be null"⟩ else none)
  else
    match status, result with
    | .statusOk, .obj o => .ok (some o) none
    | .statusOk, _ =>
        .ok none (if errSlot then some ⟨"InvalidResponse", "Unexpected response type"⟩ else none)
    | .statusError, .obj o => .ok none (osrmc_error_from_json o errSlot)
    | .statusError, _ =>
        .ok none (if errSlot then some ⟨"TripError", "Trip request failed"⟩ else none)

/-- `osrmc_tile`: on an OK status the source runs
`std::get<std::string>(result)` with no `holds_alternative` check, so an
unexpected variant throws `std::bad_variant_access`, is caught at the
function boundary, and surfaces as a generic `Exception` record — not as
`InvalidResponse`. -/
def osrmc_tile (osrm : Bool) (params : Bool) (status : OsrmStatus)
    (result : EngineResult) (errSlot : Bool) : CRes (Option String) :=
  if osrm = false ∨ params = false then
    .ok none (if errSlot then some ⟨"InvalidArgument", "OSRM instance and params must not be null"⟩ else none)
  else
    match status with
    | .statusOk =>
      match result with
      | .bytes s => .ok (some s) none
      | _ => .ok none (osrmc_error_from_exception bad_variant_access_exn errSlot)
    | .statusError =>
      match result with
      | .obj o => .ok none (osrmc_error_from_json o errSlot)
      | _ => .ok none (if errSlot then some ⟨"TileError", "Failed to generate tile"⟩ else none)

/-! ## Response field accessors

Accessors return the extracted value paired with the tree the holder owns
after the call (the handle is an owning pointer to that tree, so callers
observe mutations made through it). Accessors that navigate only with
`find`/`at` cannot mutate; their models compute a `CRes` of the bare
value and reattach the unchanged tree with `cresWith`. -/

/-- Reattach the (unchanged) held tree to a read-only accessor outcome. -/
def cresWith {α : Type} (tree : Option JObject) : CRes α → CRes (α × Option JObject)
  | .ok a e => .ok (a, tree) e
  | .crash => .crash

/-- Body of `osrmc_nearest_response_latitude` after the handle check
(read-only: navigates with `at` only). `location[1]` is an unchecked
vector `operator[]` (`COORDINATE_LATITUDE_INDEX`). -/
def nearest_latitude_body (json : JObject) (index : Nat) (errSlot : Bool) : CRes JDouble :=
  match mapAt json "waypoints" with
  | .error e => .ok JDouble.nan (osrmc_error_from_exception e errSlot)
  | .ok waypointsV =>
    match getArr waypointsV with
    | .error e => .ok JDouble.nan (osrmc_error_from_exception e errSlot)
    | .ok waypoints =>
      if waypoints.length ≤ index then
        -- unguarded store: `*error = new osrmc_error{...}` with no null check
        if errSlot then .ok JDouble.nan (some ⟨"IndexOutOfBounds", "Waypoint index out of bounds"⟩)
        else .crash
      else
        match vectorAt waypoints index with
        | .error e => .ok JDouble.nan (osrmc_error_from_exception e errSlot)
        | .ok waypointV =>
          match getObj waypointV with
          | .error e => .ok JDouble.nan (osrmc_error_from_exception e errSlot)
          | .ok waypoint =>
            match mapAt waypoint "location" with
            | .error e => .ok JDouble.nan (osrmc_error_from_exception e errSlot)
            | .ok locationV =>
              match getArr locationV with
              | .error e => .ok JDouble.nan (osrmc_error_from_exception e errSlot)
              | .ok location =>
                match vectorIndex location 1 with
                | .crash => .crash
                | .ok latitudeV =>
                  match getNum latitudeV with
                  | .error e => .ok JDouble.nan (osrmc_error_from_exception e errSlot)
                  | .ok latitude => .ok latitude none

/-- `osrmc_nearest_response_latitude`: validated handle, NaN sentinel. -/
def osrmc_nearest_response_latitude (response : Option JObject) (index : Nat)
    (errSlot : Bool) : CRes (JDouble × Option JObject) :=
  match response with
  | none =>
      .ok (JDouble.nan, none)
        (if errSlot then some ⟨"InvalidArgument", "Nearest response must not be null"⟩ else none)
  | some json => cresWith (some json) (nearest_latitude_body json index errSlot)

/-- `osrmc_route_response_distance`: validated handle, `+Infinity`
sentinel. Navigates with map `operator[]` for `routes` and `distance`,
default-inserting on a missing key (see `bracketKey`); the insertion is
written back into the held tree. -/
def osrmc_route_response_distance (response : Option JObject) (errSlot : Bool) :
    CRes (JDouble × Option JObject) :=
  match response with
  | none =>
      .ok (JDouble.inf, none)
        (if errSlot then some ⟨"InvalidArgument", "Route response must not be null"⟩ else none)
  | some json =>
    let routesPair := bracketKey json "routes"
    match getArr routesPair.1 with
    | .error e => .ok (JDouble.inf, some routesPair.2) (osrmc_error_from_exception e errSlot)
    | .ok routes =>
      match vectorAt routes 0 with
      | .error e => .ok (JDouble.inf, some routesPair.2) (osrmc_error_from_exception e errSlot)
      | .ok routeV =>
        match getObj routeV with
        | .error e => .ok (JDouble.inf, some routesPair.2) (osrmc_error_from_exception e errSlot)
        | .ok route =>
          let distancePair := bracketKey route "distance"
          let json2 := setKey routesPair.2 "routes" (JValue.arr (routes.set 0 (JValue.obj distancePair.2)))
          match getNum distancePair.1 with
          | .error e => .ok (JDouble.inf, some json2) (osrmc_error_from_exception e errSlot)
          | .ok distance => .ok (distance, some json2) none

/-- `osrmc_route_response_weight`: validated handle, `+Infinity`
sentinel; `weight` is looked up with `find` and a missing key is the
`NoWeight` error, stored through an unguarded `*error = ...`. -/
def osrmc_route_response_weight (response : Option JObject) (errSlot : Bool) :
    CRes (JDouble × Option JObject) :=
  match response with
  | none =>
      .ok (JDouble.inf, none)
        (if errSlot then some ⟨"InvalidArgument", "Route response must not be null"⟩ else none)
  | some json =>
    let routesPair := bracketKey json "routes"
    match getArr routesPair.1 with
    | .error e => .ok (JDouble.inf, some routesPair.2) (osrmc_error_from_exception e errSlot)
    | .ok routes =>
      match vectorAt routes 0 with
      | .error e => .ok (JDouble.inf, some routesPair.2) (osrmc_error_from_exception e errSlot)
      | .ok routeV =>
        match getObj routeV with
        | .error e => .ok (JDouble.inf, some routesPair.2) (osrmc_error_from_exception e errSlot)
        | .ok route =>
          match lookupKey route "weight" with
          | none =>
              -- unguarded store: `*error = new osrmc_error{...}` with no null check
              if errSlot then
                .ok (JDouble.inf, some routesPair.2)
                  (some ⟨"NoWeight", "Weight not available for this route"⟩)
              else .crash
          | some weightV =>
            match getNum weightV with
            | .error e => .ok (JDouble.inf, some routesPair.2) (osrmc_error_from_exception e errSlot)
            | .ok weight => .ok (weight, some routesPair.2) none

/-- `osrmc_route_response_step_weight`: performs no handle validation (a
null response handle is dereferenced), uses the NaN sentinel, and stores
all of its errors through unguarded `*error = ...`. -/
def osrmc_route_response_step_weight (response : Option JObject)
    (route_index leg_index step_index : Nat) (errSlot : Bool) :
    CRes (JDouble × Option JObject) :=
  match response with
  | none => .crash
  | some json =>
    let routesPair := bracketKey json "routes"
    match getArr routesPair.1 with
    | .error e => .ok (JDouble.nan, some routesPair.2) (osrmc_error_from_exception e errSlot)
    | .ok routes =>
      if routes.length ≤ route_index then
        if errSlot then
          .ok (JDouble.nan, some routesPair.2) (some ⟨"IndexOutOfBounds", "Route index out of bounds"⟩)
        else .crash
      else
        match vectorAt routes route_index with
        | .error e => .ok (JDouble.nan, some routesPair.2) (osrmc_error_from_exception e errSlot)
        | .ok routeV =>
          match getObj routeV with
          | .error e => .ok (JDouble.nan, some routesPair.2) (osrmc_error_from_exception e errSlot)
          | .ok route =>
            match mapAt route "legs" with
            | .error e => .ok (JDouble.nan, some routesPair.2) (osrmc_error_from_exception e errSlot)
            | .ok legsV =>
              match getArr legsV with
              | .error e => .ok (JDouble.nan, some routesPair.2) (osrmc_error_from_exception e errSlot)
              | .ok legs =>
                if legs.length ≤ leg_index then
                  if errSlot then
                    .ok (JDouble.nan, some routesPair.2) (some ⟨"IndexOutOfBounds", "Leg index out of bounds"⟩)
                  else .crash
                else
                  match vectorAt legs leg_index with
                  | .error e => .ok (JDouble.nan, some routesPair.2) (osrmc_error_from_exception e errSlot)
                  | .ok legV =>
                    match getObj legV with
                    | .error e => .ok (JDouble.nan, some routesPair.2) (osrmc_error_from_exception e errSlot)
                    | .ok leg =>
                      match mapAt leg "steps" with
                      | .error e => .ok (JDouble.nan, some routesPair.2) (osrmc_error_from_exception e errSlot)
                      | .ok stepsV =>
                        match getArr stepsV with
                        | .error e => .ok (JDouble.nan, some routesPair.2) (osrmc_error_from_exception e errSlot)
                        | .ok steps =>
                          if steps.length ≤ step_index then
                            if errSlot then
                              .ok (JDouble.nan, some routesPair.2)
                                (some ⟨"IndexOutOfBounds", "Step index out of bounds"⟩)
                            else .crash
                          else
                            match vectorAt steps step_index with
                            | .error e => .ok (JDouble.nan, some routesPair.2) (osrmc_error_from_exception e errSlot)
                            | .ok stepV =>
                              match getObj stepV with
                              | .error e => .ok (JDouble.nan, some routesPair.2) (osrmc_error_from_exception e errSlot)
                              | .ok step =>
                                match lookupKey step "weight" with
                                | none =>
                                    if errSlot then
                                      .ok (JDouble.nan, some routesPair.2)
                                        (some ⟨"NoWeight", "Weight not available for this step"⟩)
                                    else .crash
                                | some weightV =>
                                  match getNum weightV with
                                  | .error e => .ok (JDouble.nan, some routesPair.2) (osrmc_error_from_exception e errSlot)
                                  | .ok weight => .ok (weight, some routesPair.2) none

/-- Body of `osrmc_match_response_tracepoint_latitude` after the handle
check (read-only). A `Null` tracepoint slot is reported as the dedicated
`NullTracepoint` error before any projection to `Object`. -/
def tracepoint_latitude_body (json : JObject) (index : Nat) (errSlot : Bool) : CRes JDouble :=
  match mapAt json "tracepoints" with
  | .error e => .ok JDouble.nan (osrmc_error_from_exception e errSlot)
  | .ok tracepointsV =>
    match getArr tracepointsV with
    | .error e => .ok JDouble.nan (osrmc_error_from_exception e errSlot)
    | .ok tracepoints =>
      if tracepoints.length ≤ index then
        if errSlot then .ok JDouble.nan (some ⟨"IndexOutOfBounds", "Tracepoint index out of bounds"⟩)
        else .crash
      else
        match vectorAt tracepoints index with
        | .error e => .ok JDouble.nan (osrmc_error_from_exception e errSlot)
        | .ok tracepointV =>
          match tracepointV with
          | .null =>
              if errSlot then .ok JDouble.nan (some ⟨"NullTracepoint", "Tracepoint was omitted (outlier)"⟩)
              else .crash
          | _ =>
            match getObj tracepointV with
            | .error e => .ok JDouble.nan (osrmc_error_from_exception e errSlot)
            | .ok tracepoint =>
              match mapAt tracepoint "location" with
              | .error e => .ok JDouble.nan (osrmc_error_from_exception e errSlot)
              | .ok locationV =>
                match getArr locationV with
                | .error e => .ok JDouble.nan (osrmc_error_from_exception e errSlot)
                | .ok location =>
                  match vectorIndex location 1 with
                  | .crash => .crash
                  | .ok latitudeV =>
                    match getNum latitudeV with
                    | .error e => .ok JDouble.nan (osrmc_error_from_exception e errSlot)
                    | .ok latitude => .ok latitude none

/-- `osrmc_match_response_tracepoint_latitude`: validated handle. -/
def osrmc_match_response_tracepoint_latitude (response : Option JObject) (index : Nat)
    (errSlot : Bool) : CRes (JDouble × Option JObject) :=
  match response with
  | none =>
      .ok (JDouble.nan, none)
        (if errSlot then some ⟨"InvalidArgument", "Match response must not be null"⟩ else none)
  | some json => cresWith (some json) (tracepoint_latitude_body json index errSlot)

/-- Body of `osrmc_match_response_tracepoint_longitude` (read-only);
identical to the latitude body except for `location[0]`
(`COORDINATE_LONGITUDE_INDEX`). -/
def tracepoint_longitude_body (json : JObject) (index : Nat) (errSlot : Bool) : CRes JDouble :=
  match mapAt json "tracepoints" with
  | .error e => .ok JDouble.nan (osrmc_error_from_exception e errSlot)
  | .ok tracepointsV =>
    match getArr tracepointsV with
    | .error e => .ok JDouble.nan (osrmc_error_from_exception e errSlot)
    | .ok tracepoints =>
      if tracepoints.length ≤ index then
        if errSlot then .ok JDouble.nan (some ⟨"IndexOutOfBounds", "Tracepoint index out of bounds"⟩)
        else .crash
      else
        match vectorAt tracepoints index with
        | .error e => .ok JDouble.nan (osrmc_error_from_exception e errSlot)
        | .ok tracepointV =>
          match tracepointV with
          | .null =>
              if errSlot then .ok JDouble.nan (some ⟨"NullTracepoint", "Tracepoint was omitted (outlier)"⟩)
              else .crash
          | _ =>
            match getObj tracepointV with
            | .error e => .ok JDouble.nan (osrmc_error_from_exception e errSlot)
            | .ok tracepoint =>
              match mapAt tracepoint "location" with
              | .error e => .ok JDouble.nan (osrmc_error_from_exception e errSlot)
              | .ok locationV =>
                match getArr locationV with
                | .error e => .ok JDouble.nan (osrmc_error_from_exception e errSlot)
                | .ok location =>
                  match vectorIndex location 0 with
                  | .crash => .crash
                  | .ok longitudeV =>
                    match getNum longitudeV with
                    | .error e => .ok JDouble.nan (osrmc_error_from_exception e errSlot)
                    | .ok longitude => .ok longitude none

/-- `osrmc_match_response_tracepoint_longitude`: performs no handle
validation — a null response handle is dereferenced immediately
(`reinterpret_cast` followed by `response_typed->values`). -/
def osrmc_match_response_tracepoint_longitude (response : Option JObject) (index : Nat)
    (errSlot : Bool) : CRes (JDouble × Option JObject) :=
  match response with
  | none => .crash
  | some json => cresWith (some json) (tracepoint_longitude_body json index errSlot)

/-- Body of `osrmc_match_response_tracepoint_is_null` (read-only): the
three-valued query; `1` for a `Null` slot, `0` otherwise, `-1` with an
error on a bad index. -/
def tracepoint_is_null_body (json : JObject) (index : Nat) (errSlot : Bool) : CRes Int :=
  match mapAt json "tracepoints" with
  | .error e => .ok (-1) (osrmc_error_from_exception e errSlot)
  | .ok tracepointsV =>
    match getArr tracepointsV with
    | .error e => .ok (-1) (osrmc_error_from_exception e errSlot)
    | .ok tracepoints =>
      if tracepoints.length ≤ index then
        if errSlot then .ok (-1) (some ⟨"IndexOutOfBounds", "Tracepoint index out of bounds"⟩)
        else .crash
      else
        match vectorAt tracepoints index with
        | .error e => .ok (-1) (osrmc_error_from_exception e errSlot)
        | .ok tracepointV =>
          match tracepointV with
          | .null => .ok 1 none
          | _ => .ok 0 none

/-- `osrmc_match_response_tracepoint_is_null`: validated handle. -/
def osrmc_match_response_tracepoint_is_null (response : Option JObject) (index : Nat)
    (errSlot : Bool) : CRes (Int × Option JObject) :=
  match response with
  | none =>
      .ok ((-1), none)
        (if errSlot then some ⟨"InvalidArgument", "Match response must not be null"⟩ else none)
  | some json => cresWith (some json) (tracepoint_is_null_body json index errSlot)

/-! ## Table matrix extraction

The caller buffer (`double* matrix` with capacity `max_size`) is a list
of doubles plus the capacity; `matrix[idx] = v` is `List.set`. The
wrapper reaches the buffer only through indices below the required size,
which it has checked against `max_size` before the first write. -/

/-- The value of `static_cast<int>(n)` for a `size_t` operand (the
`static_cast<int>(required_size)` of the success return): the operand is
converted modulo 2^32 into the value range of a 32-bit `int`,
[-2^31, 2^31). -/
def static_cast_int (n : Nat) : Int :=
  if n % 2 ^ 32 < 2 ^ 31 then ((n % 2 ^ 32 : Nat) : Int)
  else ((n % 2 ^ 32 : Nat) : Int) - 2 ^ 32

/-- One matrix cell: `Null` becomes `+Infinity` (`NoRoute`), anything
else goes through `std::get<Number>`. -/
def matrix_cell_value (v : JValue) : Except CppExn JDouble :=
  match v with
  | .null => .ok JDouble.inf
  | v => getNum v

/-- The inner loop of the matrix extraction: writes `count` cells of one
row, reading `row.values.at(j)` upward from `j`, into the buffer at
`idx` upward. A thrown exception carries the partially written buffer
(the catch at the function boundary does not undo writes). -/
def matrix_fill_row (cells : List JValue) (j count : Nat) (buf : List JDouble) (idx : Nat) :
    Except (CppExn × List JDouble) (List JDouble × Nat) :=
  match count with
  | 0 => .ok (buf, idx)
  | c + 1 =>
    match vectorAt cells j with
    | .error e => .error (e, buf)
    | .ok v =>
      match matrix_cell_value v with
      | .error e => .error (e, buf)
      | .ok d => matrix_fill_row cells (j + 1) c (buf.set idx d) (idx + 1)

/-- The outer loop of the matrix extraction: each row is projected to an
`Array` and then written with `matrix_fill_row`. -/
def matrix_fill_rows (rows : List JValue) (num_destinations : Nat) (buf : List JDouble)
    (idx : Nat) : Except (CppExn × List JDouble) (List JDouble) :=
  match rows with
  | [] => .ok buf
  | r :: rest =>
    match getArr r with
    | .error e => .error (e, buf)
    | .ok cells =>
      match matrix_fill_row cells 0 num_destinations buf idx with
      | .error eb => .error eb
      | .ok (buf1, idx1) => matrix_fill_rows rest num_destinations buf1 idx1

/-- `osrmc_table_response_get_duration_matrix`: performs no handle
validation (a null response handle is dereferenced), checks `durations`
presence with `find`, rejects a null buffer, takes the column count from
the first row, rejects a too-small buffer before any write
(`BufferTooSmall`), then flattens row-major with `+Infinity` for `Null`
cells. All error stores are unguarded `*error = ...`. The success return
is `static_cast<int>(required_size)`, which wraps for large matrices.
Returns the result code together with the buffer contents after the
call. -/
def osrmc_table_response_get_duration_matrix (response : Option JObject)
    (matrix : Option (List JDouble)) (max_size : Nat) (errSlot : Bool) :
    CRes (Int × Option (List JDouble)) :=
  match response with
  | none => .crash
  | some json =>
    match lookupKey json "durations" with
    | none =>
        if errSlot then
          .ok ((-1), matrix) (some ⟨"NoTable", "Table request not configured to return durations"⟩)
        else .crash
    | some _ =>
      match matrix with
      | none =>
          if errSlot then .ok ((-1), none) (some ⟨"InvalidArgument", "Matrix buffer cannot be null"⟩)
          else .crash
      | some buf =>
        match mapAt json "durations" with
        | .error e => .ok ((-1), some buf) (osrmc_error_from_exception e errSlot)
        | .ok durationsV =>
          match getArr durationsV with
          | .error e => .ok ((-1), some buf) (osrmc_error_from_exception e errSlot)
          | .ok durations =>
            if durations.length = 0 then .ok (0, some buf) none
            else
              match vectorAt durations 0 with
              | .error e => .ok ((-1), some buf) (osrmc_error_from_exception e errSlot)
              | .ok firstRowV =>
                match getArr firstRowV with
                | .error e => .ok ((-1), some buf) (osrmc_error_from_exception e errSlot)
                | .ok first_row =>
                  if max_size < durations.length * first_row.length then
                    if errSlot then
                      .ok ((-1), some buf) (some ⟨"BufferTooSmall", "Matrix buffer too small"⟩)
                    else .crash
                  else
                    match matrix_fill_rows durations first_row.length buf 0 with
                    | .error (e, buf1) => .ok ((-1), some buf1) (osrmc_error_from_exception e errSlot)
                    | .ok buf1 =>
                        .ok (static_cast_int (durations.length * first_row.length), some buf1) none

/-- `osrmc_table_response_get_distance_matrix`: same algorithm over the
`distances` member, but with the leading handle validation that the
durations variant lacks. -/
def osrmc_table_response_get_distance_matrix (response : Option JObject)
    (matrix : Option (List JDouble)) (max_size : Nat) (errSlot : Bool) :
    CRes (Int × Option (List JDouble)) :=
  match response with
  | none =>
      .ok ((-1), matrix)
        (if errSlot then some ⟨"InvalidArgument", "Table response must not be null"⟩ else none)
  | some json =>
    match lookupKey json "distances" with
    | none =>
        if errSlot then
          .ok ((-1), matrix) (some ⟨"NoTable", "Table request not configured to return distances"⟩)
        else .crash
    | some _ =>
      match matrix with
      | none =>
          if errSlot then .ok ((-1), none) (some ⟨"InvalidArgument", "Matrix buffer cannot be null"⟩)
          else .crash
      | some buf =>
        match mapAt json "distances" with
        | .error e => .ok ((-1), some buf) (osrmc_error_from_exception e errSlot)
        | .ok distancesV =>
          match getArr distancesV with
          | .error e => .ok ((-1), some buf) (osrmc_error_from_exception e errSlot)
          | .ok distances =>
            if distances.length = 0 then .ok (0, some buf) none
            else
              match vectorAt distances 0 with
              | .error e => .ok ((-1), some buf) (osrmc_error_from_exception e errSlot)
              | .ok firstRowV =>
                match getArr firstRowV with
                | .error e => .ok ((-1), some buf) (osrmc_error_from_exception e errSlot)
                | .ok first_row =>
                  if max_size < distances.length * first_row.length then
                    if errSlot then
                      .ok ((-1), some buf) (some ⟨"BufferTooSmall", "Matrix buffer too small"⟩)
                    else .crash
                  else
                    match matrix_fill_rows distances first_row.length buf 0 with
                    | .error (e, buf1) => .ok ((-1), some buf1) (osrmc_error_from_exception e errSlot)
                    | .ok buf1 =>
                        .ok (static_cast_int (distances.length * first_row.length), some buf1) none

/-- A well-formed matrix cell: `Null` or a `Number` (checked form, used
as a hypothesis of the flattening theorem). -/
def isMatrixCell : JValue → Bool
  | .null => true
  | .num _ => true
  | _ => false

/-- The value the spec assigns to one flattened cell: the number held by
the cell, with `+Infinity` substituted for `Null`. -/
def spec_cell (v : JValue) : JDouble :=
  match v with
  | .num x => x
  | _ => JDouble.inf

/-- Row-major flattening of the matrix, as the spec words it. -/
def spec_flatten (rows : List (List JValue)) : List JDouble :=
  (rows.map (List.map spec_cell)).flatten

/-! ## Helper lemmas -/

/-- Sequential buffer writes `matrix[idx++] = v`, the effect of the fill
loop on the caller buffer. -/
def writeSeq (buf : List JDouble) (idx : Nat) : List JDouble → List JDouble
  | [] => buf
  | d :: ds => writeSeq (buf.set idx d) (idx + 1) ds

theorem drop_eq_get_cons {α : Type} (l : List α) (n : Nat) (h : n < l.length) :
    l.drop n = l.get ⟨n, h⟩ :: l.drop (n + 1) := by
  rw [List.drop_eq_getElem_cons h]
  rfl

theorem writeSeq_append (l1 l2 : List JDouble) : ∀ (buf : List JDouble) (idx : Nat),
    writeSeq buf idx (l1 ++ l2) = writeSeq (writeSeq buf idx l1) (idx + l1.length) l2 := by
  induction l1 with
  | nil => intro buf idx; simp [writeSeq]
  | cons d ds ih =>
      intro buf idx
      have harith : idx + 1 + ds.length = idx + (ds.length + 1) := by omega
      simp only [List.cons_append, writeSeq, List.append_eq, ih, List.length_cons, harith]

theorem writeSeq_eq_splice (l : List JDouble) : ∀ (buf : List JDouble) (idx : Nat),
    idx + l.length ≤ buf.length →
    writeSeq buf idx l = buf.take idx ++ l ++ buf.drop (idx + l.length) := by
  induction l with
  | nil =>
      intro buf idx _
      simp [writeSeq]
  | cons d ds ih =>
      intro buf idx h
      simp only [List.length_cons] at h
      have hidx : idx < buf.length := by omega
      rw [writeSeq, ih (buf.set idx d) (idx + 1) (by rw [List.length_set]; omega)]
      rw [List.set_eq_take_cons_drop d hidx]
      have htk : ((buf.take idx).length) = idx := by
        simp [List.length_take]
        omega
      rw [List.take_append_eq_append_take, List.drop_append_eq_append_drop]
      rw [List.take_of_length_le (by omega : (buf.take idx).length ≤ idx + 1)]
      rw [List.drop_eq_nil_of_le (by omega : (buf.take idx).length ≤ idx + 1 + ds.length)]
      rw [htk]
      have h1 : idx + 1 - idx = 1 := by omega
      have h2 : idx + 1 + ds.length - idx = ds.length + 1 := by omega
      rw [h1, h2]
      rw [List.take_succ_cons, List.take_zero, List.drop_succ_cons]
      rw [List.drop_drop, List.nil_append]
      have h3 : idx + 1 + ds.length = idx + (ds.length + 1) := by omega
      rw [h3]
      simp [List.append_assoc]

theorem writeSeq_length (l : List JDouble) : ∀ (buf : List JDouble) (idx : Nat),
    (writeSeq buf idx l).length = buf.length := by
  induction l with
  | nil => intro buf idx; rfl
  | cons d ds ih => intro buf idx; rw [writeSeq, ih, List.length_set]

theorem static_cast_int_of_lt (n : Nat) (h : n < 2 ^ 31) :
    static_cast_int n = (n : Int) := by
  unfold static_cast_int
  rw [Nat.mod_eq_of_lt (by omega)]
  rw [if_pos (by omega)]

theorem matrix_cell_value_ok (c : JValue) (h : isMatrixCell c = true) :
    matrix_cell_value c = Except.ok (spec_cell c) := by
  cases c <;> simp_all [isMatrixCell, matrix_cell_value, getNum, spec_cell]

theorem matrix_fill_row_ok (cells : List JValue)
    (hc : ∀ c ∈ cells, isMatrixCell c = true) :
    ∀ (count j : Nat) (buf : List JDouble) (idx : Nat), j + count ≤ cells.length →
    matrix_fill_row cells j count buf idx
      = Except.ok (writeSeq buf idx (((cells.drop j).take count).map spec_cell), idx + count) := by
  intro count
  induction count with
  | zero =>
      intro j buf idx _
      simp [matrix_fill_row, writeSeq]
  | succ c ih =>
      intro j buf idx h
      have hj : j < cells.length := by omega
      have hget : cells[j]? = some (cells.get ⟨j, hj⟩) := by
        simp [List.getElem?_eq_getElem hj]
      have hva : vectorAt cells j = Except.ok (cells.get ⟨j, hj⟩) := by
        unfold vectorAt
        rw [hget]
      rw [matrix_fill_row]
      simp only [hva, matrix_cell_value_ok _ (hc _ (List.get_mem cells j hj))]
      rw [ih (j + 1) (buf.set idx (spec_cell (cells.get ⟨j, hj⟩))) (idx + 1) (by omega)]
      rw [drop_eq_get_cons cells j hj, List.take_succ_cons, List.map_cons]
      rw [show writeSeq buf idx (spec_cell (cells.get ⟨j, hj⟩) :: ((cells.drop (j + 1)).take c).map spec_cell)
            = writeSeq (buf.set idx (spec_cell (cells.get ⟨j, hj⟩))) (idx + 1) (((cells.drop (j + 1)).take c).map spec_cell)
          from rfl]
      rw [show idx + (c + 1) = idx + 1 + c from by omega]

theorem matrix_fill_rows_ok (rows : List (List JValue)) (M : Nat)
    (hrow : ∀ r ∈ rows, r.length = M)
    (hc : ∀ r ∈ rows, ∀ c ∈ r, isMatrixCell c = true) :
    ∀ (buf : List JDouble) (idx : Nat),
    matrix_fill_rows (rows.map JValue.arr) M buf idx
      = Except.ok (writeSeq buf idx (spec_flatten rows)) := by
  induction rows with
  | nil =>
      intro buf idx
      simp [matrix_fill_rows, spec_flatten, writeSeq]
  | cons r rest ih =>
      intro buf idx
      have hr : r.length = M := hrow r (by simp)
      have hfill := matrix_fill_row_ok r (hc r (by simp)) M 0 buf idx (by rw [hr]; omega)
      simp only [List.map_cons, matrix_fill_rows, getArr, hfill]
      rw [ih (fun x hx => hrow x (by simp [hx])) (fun x hx => hc x (by simp [hx]))]
      rw [List.drop_zero, List.take_of_length_le (le_of_eq hr)] at hfill ⊢
      have hflat : spec_flatten (r :: rest) = r.map spec_cell ++ spec_flatten rest := by
        simp [spec_flatten]
      rw [hflat, writeSeq_append]
      rw [List.length_map, hr]

theorem spec_flatten_length (rows : List (List JValue)) (M : Nat)
    (hrow : ∀ r ∈ rows, r.length = M) :
    (spec_flatten rows).length = rows.length * M := by
  induction rows with
  | nil => simp [spec_flatten]
  | cons r rest ih =>
      have hr : r.length = M := hrow r (by simp)
      have ihr := ih (fun x hx => hrow x (by simp [hx]))
      simp only [spec_flatten, List.map_cons, List.flatten_cons, List.length_append,
        List.length_map, List.length_cons] at ihr ⊢
      rw [hr, ihr, Nat.succ_mul]
      omega

/-- The per-byte escape emitted by the source switch coincides with the
escape table as the spec words it. -/
theorem escape_byte_eq (ch : Nat) : osrmc_json_escape_byte ch = spec_escape_byte ch := by
  unfold osrmc_json_escape_byte spec_escape_byte
  split_ifs with h1 h2 h3 h4 h5 h6 h7 h8 <;> try rfl
  have hs : ch >>> 4 = ch / 16 := Nat.shiftRight_eq_div_pow ch 4
  have ha : (ch >>> 4) &&& 15 = ch / 16 % 16 := by
    rw [hs]; exact Nat.and_pow_two_sub_one_eq_mod _ 4
  have hm : ch / 16 % 16 = ch / 16 := Nat.mod_eq_of_lt (by omega)
  have hb : ch &&& 15 = ch % 16 := Nat.and_pow_two_sub_one_eq_mod ch 4
  rw [ha, hm, hb]

theorem cresObs_cresWith {α : Type} (t : Option JObject) (r : CRes α) :
    cresObs (cresWith t r) = r := by
  cases r <;> rfl

theorem tracepoint_latitude_body_null (tps : List JValue) (index : Nat)
    (h : tps[index]? = some JValue.null) :
    tracepoint_latitude_body [("tracepoints", JValue.arr tps)] index true
      = CRes.ok JDouble.nan (some ⟨"NullTracepoint", "Tracepoint was omitted (outlier)"⟩) := by
  have hlt : index < tps.length := by
    by_contra hh
    rw [List.getElem?_eq_none (by omega)] at h
    cases h
  have hnle : ¬ (tps.length ≤ index) := by omega
  simp [tracepoint_latitude_body, mapAt, lookupKey, getArr, vectorAt, hnle, h]

theorem tracepoint_longitude_body_null (tps : List JValue) (index : Nat)
    (h : tps[index]? = some JValue.null) :
    tracepoint_longitude_body [("tracepoints", JValue.arr tps)] index true
      = CRes.ok JDouble.nan (some ⟨"NullTracepoint", "Tracepoint was omitted (outlier)"⟩) := by
  have hlt : index < tps.length := by
    by_contra hh
    rw [List.getElem?_eq_none (by omega)] at h
    cases h
  have hnle : ¬ (tps.length ≤ index) := by omega
  simp [tracepoint_longitude_body, mapAt, lookupKey, getArr, vectorAt, hnle, h]

theorem tracepoint_latitude_body_congr (tps1 tps2 : List JValue) (j : Nat) (errSlot : Bool)
    (hlen : tps1.length = tps2.length) (hget : tps1[j]? = tps2[j]?) :
    tracepoint_latitude_body [("tracepoints", JValue.arr tps1)] j errSlot
      = tracepoint_latitude_body [("tracepoints", JValue.arr tps2)] j errSlot := by
  simp [tracepoint_latitude_body, mapAt, lookupKey, getArr, vectorAt, hlen, hget]

theorem tracepoint_longitude_body_congr (tps1 tps2 : List JValue) (j : Nat) (errSlot : Bool)
    (hlen : tps1.length = tps2.length) (hget : tps1[j]? = tps2[j]?) :
    tracepoint_longitude_body [("tracepoints", JValue.arr tps1)] j errSlot
      = tracepoint_longitude_body [("tracepoints", JValue.arr tps2)] j errSlot := by
  simp [tracepoint_longitude_body, mapAt, lookupKey, getArr, vectorAt, hlen, hget]

/-! ## Claims -/

/-- C8: for every input byte string, the string escaping of the
serializer maps the double quote, backslash, backspace, form feed,
newline, carriage return and tab to their two-character escapes, every
other byte below 0x20 to a lowercase-hex `u00XX` escape, and passes
every other byte through unchanged — that is, appending the escaped
input is appending the concatenation of the per-byte spec table. -/
theorem claim8_serializer_escaping (out : String) (value : List Nat) :
    osrmc_json_append_escaped out value = out ++ spec_escaped value := by
  induction value generalizing out with
  | nil => simp [osrmc_json_append_escaped, spec_escaped]
  | cons ch rest ih =>
      rw [osrmc_json_append_escaped, spec_escaped, ih, escape_byte_eq, String.append_assoc]

/-- C10: `osrmc_error_code` and `osrmc_error_message` dereference the
error-record handle unconditionally — a null record is undefined
behavior — while `osrmc_error_destruct` checks for null and no-ops; on
every non-null record the two accessors return exactly the stored code
and message strings. -/
theorem claim10_error_record_accessors :
    (∀ e : osrmc_error, osrmc_error_code (some e) = CVal.ok e.code
        ∧ osrmc_error_message (some e) = CVal.ok e.message)
    ∧ osrmc_error_code none = CVal.crash
    ∧ osrmc_error_message none = CVal.crash
    ∧ osrmc_error_destruct none = CVal.ok () :=
  ⟨fun _ => ⟨rfl, rfl⟩, rfl, rfl, rfl⟩

/-- C1: the claim (a null error out-parameter never causes a crash)
fails on the code: `osrmc_route_response_weight`, called with a non-null
response whose single route lacks a `weight` member and with a null
error slot, executes the unguarded `*error = new osrmc_error{...}` store
of the `NoWeight` record and dereferences the null slot. -/
theorem claim1_route_weight_null_error_slot_crash :
    osrmc_route_response_weight (some [("routes", JValue.arr [JValue.obj []])]) false
      = CRes.crash := rfl

/-- C2 counterexample: `osrmc_match_response_tracepoint_longitude`
performs no handle validation, so a null response handle is dereferenced
(undefined behavior) instead of an `InvalidArgument` record plus the
NaN sentinel. -/
theorem claim2_tracepoint_longitude_null_handle_crash :
    osrmc_match_response_tracepoint_longitude none 0 true = CRes.crash := rfl

/-- C5 counterexample: `osrmc_tile` with an OK engine status and a
result slot holding a JSON object (not the expected byte string) fails
through the generic exception path, producing an `Exception` record —
not the `InvalidResponse` record the claim requires — though it does
return no handle. -/
theorem claim5_tile_unexpected_variant_counterexample :
    osrmc_tile true true OsrmStatus.statusOk (EngineResult.obj []) true
      = CRes.ok none (some ⟨"Exception", "bad variant access"⟩)
    ∧ ("Exception" : String) ≠ "InvalidResponse" :=
  ⟨rfl, by decide⟩

/-- C6 counterexample: `osrmc_route_response_step_weight` — a
weight-class numeric accessor — called on a response whose step lacks
the `weight` member returns NaN (with a `NoWeight` record), not the
`+Infinity` the claim requires for duration/distance/weight-class
fields. -/
theorem claim6_step_weight_absent_nan_counterexample :
    osrmc_route_response_step_weight
      (some [("routes", JValue.arr [JValue.obj [("legs", JValue.arr
        [JValue.obj [("steps", JValue.arr [JValue.obj []])]])]])])
      0 0 0 true
      = CRes.ok
          (JDouble.nan, some [("routes", JValue.arr [JValue.obj [("legs", JValue.arr
            [JValue.obj [("steps", JValue.arr [JValue.obj []])]])]])])
          (some ⟨"NoWeight", "Weight not available for this step"⟩)
    ∧ JDouble.nan ≠ JDouble.inf :=
  ⟨rfl, by decide⟩

/-- C3: for a table response holding an N-by-M `durations` (or
`distances`) array-of-arrays of Number-or-Null cells, with N times M
below 2^31 so that the `static_cast<int>` of the success return cannot
wrap, the bulk accessor flattens the matrix row-major into the caller
buffer, substituting `+Infinity` for every `Null` cell, and returns N
times M; when the buffer capacity is below N times M it reports
`BufferTooSmall`, returns -1, and writes nothing into the buffer. -/
theorem claim3_table_matrix_flattening (rows : List (List JValue)) (M : Nat) (buf : List JDouble)
    (hrowb : rows.all (fun r => r.length == M) = true)
    (hcb : rows.all (fun r => r.all isMatrixCell) = true)
    (hsz : rows.length * M < 2 ^ 31) :
    (rows.length * M ≤ buf.length →
      osrmc_table_response_get_duration_matrix
          (some [("durations", JValue.arr (rows.map JValue.arr))]) (some buf) buf.length true
        = CRes.ok (((rows.length * M : Nat) : Int),
            some (spec_flatten rows ++ buf.drop (rows.length * M))) none
      ∧ osrmc_table_response_get_distance_matrix
          (some [("distances", JValue.arr (rows.map JValue.arr))]) (some buf) buf.length true
        = CRes.ok (((rows.length * M : Nat) : Int),
            some (spec_flatten rows ++ buf.drop (rows.length * M))) none)
    ∧ (buf.length < rows.length * M →
      osrmc_table_response_get_duration_matrix
          (some [("durations", JValue.arr (rows.map JValue.arr))]) (some buf) buf.length true
        = CRes.ok ((-1), some buf) (some ⟨"BufferTooSmall", "Matrix buffer too small"⟩)
      ∧ osrmc_table_response_get_distance_matrix
          (some [("distances", JValue.arr (rows.map JValue.arr))]) (some buf) buf.length true
        = CRes.ok ((-1), some buf) (some ⟨"BufferTooSmall", "Matrix buffer too small"⟩)) := by
  have hrow : ∀ r ∈ rows, r.length = M := fun r hr =>
    beq_iff_eq.mp (List.all_eq_true.mp hrowb r hr)
  have hc : ∀ r ∈ rows, ∀ c ∈ r, isMatrixCell c = true := fun r hr c hcm =>
    List.all_eq_true.mp (List.all_eq_true.mp hcb r hr) c hcm
  cases rows with
  | nil =>
      refine ⟨fun _ => ⟨?_, ?_⟩, fun habs => absurd habs (by simp)⟩ <;>
        simp [osrmc_table_response_get_duration_matrix,
          osrmc_table_response_get_distance_matrix, lookupKey, mapAt, getArr, spec_flatten]
  | cons r rest =>
      have hr : r.length = M := hrow r (by simp)
      have hflatlen : (spec_flatten (r :: rest)).length = (rest.length + 1) * M := by
        have := spec_flatten_length (r :: rest) M hrow
        simpa using this
      constructor
      · intro h1
        have h1m : (rest.length + 1) * M ≤ buf.length := by simpa using h1
        have hfill := matrix_fill_rows_ok (r :: rest) M hrow hc buf 0
        simp only [List.map_cons] at hfill
        have hsplice := writeSeq_eq_splice (spec_flatten (r :: rest)) buf 0
          (by rw [hflatlen]; omega)
        simp only [List.take_zero, List.nil_append, Nat.zero_add, hflatlen] at hsplice
        have hcond : ¬ (buf.length < (rest.length + 1) * M) := by omega
        have hsz1 : (rest.length + 1) * M < 2 ^ 31 := by simpa using hsz
        have hcast := static_cast_int_of_lt ((rest.length + 1) * M) hsz1
        constructor <;>
          simp [osrmc_table_response_get_duration_matrix,
            osrmc_table_response_get_distance_matrix, lookupKey, mapAt, getArr, vectorAt,
            hr, hcond, hfill, hsplice, hcast]
      · intro h2
        have hcond : buf.length < (rest.length + 1) * M := by simpa using h2
        constructor <;>
          simp [osrmc_table_response_get_duration_matrix,
            osrmc_table_response_get_distance_matrix, lookupKey, mapAt, getArr, vectorAt,
            hr, hcond]

/-- C3 witness: the spec example — sources 2, destinations 3, one Null
cell at row 1 column 2 — flattens into the six-slot buffer row-major
with `+Infinity` in the last cell and returns 6. -/
theorem claim3_table_matrix_flattening_witness :
    osrmc_table_response_get_duration_matrix
        (some [("durations", JValue.arr
          [JValue.arr [JValue.num (JDouble.fin 11), JValue.num (JDouble.fin 12),
             JValue.num (JDouble.fin 13)],
           JValue.arr [JValue.num (JDouble.fin 21), JValue.num (JDouble.fin 22), JValue.null]])])
        (some [JDouble.fin 0, JDouble.fin 0, JDouble.fin 0,
               JDouble.fin 0, JDouble.fin 0, JDouble.fin 0]) 6 true
      = CRes.ok (6, some [JDouble.fin 11, JDouble.fin 12, JDouble.fin 13,
          JDouble.fin 21, JDouble.fin 22, JDouble.inf]) none :=
  ((claim3_table_matrix_flattening
      [[JValue.num (JDouble.fin 11), JValue.num (JDouble.fin 12), JValue.num (JDouble.fin 13)],
       [JValue.num (JDouble.fin 21), JValue.num (JDouble.fin 22), JValue.null]] 3
      [JDouble.fin 0, JDouble.fin 0, JDouble.fin 0, JDouble.fin 0, JDouble.fin 0, JDouble.fin 0]
      rfl rfl (by decide)).1 (by decide)).1

/-- C4 counterexample: `osrmc_route_response_distance` on a response
holding an empty object is not read-only — the `values["routes"]`
lookup default-inserts a `routes` entry into the held tree, so the tree
after the call differs from the tree before. -/
theorem claim4_route_distance_mutation_counterexample :
    osrmc_route_response_distance (some []) true
      = CRes.ok (JDouble.inf, some [("routes", JValue.null)])
          (some ⟨"Exception", "bad variant access"⟩)
    ∧ (some [("routes", JValue.null)] : Option JObject) ≠ some [] :=
  ⟨rfl, by simp⟩

/-- C2 (amended): the response-field accessors that begin with the
null-handle validation signal `InvalidArgument` on a null handle —
written only when the error slot is non-null — and return their declared
sentinel without dereferencing the handle; but several accessors omit
the validation (`osrmc_table_response_get_duration_matrix`,
`osrmc_match_response_tracepoint_longitude`,
`osrmc_route_response_step_weight`) and dereference the null handle. -/
theorem claim2_null_handle_validation_amended :
    (∀ (index : Nat) (errSlot : Bool),
      osrmc_match_response_tracepoint_latitude none index errSlot
        = CRes.ok (JDouble.nan, none)
            (if errSlot then some ⟨"InvalidArgument", "Match response must not be null"⟩ else none)
      ∧ osrmc_match_response_tracepoint_is_null none index errSlot
        = CRes.ok ((-1), none)
            (if errSlot then some ⟨"InvalidArgument", "Match response must not be null"⟩ else none)
      ∧ osrmc_nearest_response_latitude none index errSlot
        = CRes.ok (JDouble.nan, none)
            (if errSlot then some ⟨"InvalidArgument", "Nearest response must not be null"⟩ else none))
    ∧ (∀ errSlot : Bool,
      osrmc_route_response_weight none errSlot
        = CRes.ok (JDouble.inf, none)
            (if errSlot then some ⟨"InvalidArgument", "Route response must not be null"⟩ else none)
      ∧ osrmc_route_response_distance none errSlot
        = CRes.ok (JDouble.inf, none)
            (if errSlot then some ⟨"InvalidArgument", "Route response must not be null"⟩ else none))
    ∧ (∀ (matrix : Option (List JDouble)) (max_size : Nat) (errSlot : Bool),
      osrmc_table_response_get_distance_matrix none matrix max_size errSlot
        = CRes.ok ((-1), matrix)
            (if errSlot then some ⟨"InvalidArgument", "Table response must not be null"⟩ else none))
    ∧ osrmc_table_response_get_duration_matrix none (some []) 0 true = CRes.crash
    ∧ osrmc_match_response_tracepoint_longitude none 0 true = CRes.crash
    ∧ osrmc_route_response_step_weight none 0 0 0 true = CRes.crash :=
  ⟨fun _ _ => ⟨rfl, rfl, rfl⟩, fun _ => ⟨rfl, rfl⟩, fun _ _ _ => rfl, rfl, rfl, rfl⟩

/-- C4 (amended): serialization and the `find`/`at`-navigating accessors
are read-only — `osrmc_match_response_tracepoint_latitude` always leaves
the held tree exactly as it was — but the accessors that look up
expected keys with map `operator[]` (the route distance family) insert a
default `Null` entry for a missing key: `osrmc_route_response_distance`
on a response without `routes` leaves the tree holding a new `routes`
entry. -/
theorem claim4_read_only_amended :
    (∀ (json : JObject) (index : Nat) (errSlot : Bool),
      osrmc_match_response_tracepoint_latitude (some json) index errSlot = CRes.crash
      ∨ cresTree (osrmc_match_response_tracepoint_latitude (some json) index errSlot) = some json)
    ∧ osrmc_route_response_distance (some []) true
        = CRes.ok (JDouble.inf, some [("routes", JValue.null)])
            (some ⟨"Exception", "bad variant access"⟩) := by
  constructor
  · intro json index errSlot
    cases h : tracepoint_latitude_body json index errSlot with
    | ok a err =>
        right
        simp [osrmc_match_response_tracepoint_latitude, h, cresWith, cresTree]
    | crash =>
        left
        simp [osrmc_match_response_tracepoint_latitude, h, cresWith]
  · rfl

/-- C5 (amended): when the engine reports an OK status but the result
slot holds an unexpected variant, the five JSON-object services
(Nearest, Route, Table, Match, Trip) report the defensive
`InvalidResponse` record and return no handle; `osrmc_tile` instead
fails through the generic exception path (an `Exception` record from the
unchecked `std::get`), while still returning no handle. -/
theorem claim5_invalid_response_amended (result : EngineResult)
    (h : ∀ o : JObject, result ≠ EngineResult.obj o) :
    osrmc_nearest true true OsrmStatus.statusOk result true
      = CRes.ok none (some ⟨"InvalidResponse", "Unexpected response type"⟩)
    ∧ osrmc_route true true OsrmStatus.statusOk result true
      = CRes.ok none (some ⟨"InvalidResponse", "Unexpected response type"⟩)
    ∧ osrmc_table true true OsrmStatus.statusOk result true
      = CRes.ok none (some ⟨"InvalidResponse", "Unexpected response type"⟩)
    ∧ osrmc_match true true OsrmStatus.statusOk result true
      = CRes.ok none (some ⟨"InvalidResponse", "Unexpected response type"⟩)
    ∧ osrmc_trip true true OsrmStatus.statusOk result true
      = CRes.ok none (some ⟨"InvalidResponse", "Unexpected response type"⟩)
    ∧ (∀ o : JObject, osrmc_tile true true OsrmStatus.statusOk (EngineResult.obj o) true
        = CRes.ok none (some ⟨"Exception", "bad variant access"⟩)) := by
  cases result with
  | obj o => exact absurd rfl (h o)
  | bytes s => exact ⟨rfl, rfl, rfl, rfl, rfl, fun _ => rfl⟩

/-- C5 witness: a byte-string result under an OK status makes
`osrmc_nearest` report `InvalidResponse` and return no handle. -/
theorem claim5_invalid_response_amended_witness :
    osrmc_nearest true true OsrmStatus.statusOk (EngineResult.bytes "pbf") true
      = CRes.ok none (some ⟨"InvalidResponse", "Unexpected response type"⟩) :=
  (claim5_invalid_response_amended (EngineResult.bytes "pbf") (fun _ h => nomatch h)).1

/-- C6 (amended): route-level duration/distance/weight accessors return
`+Infinity` when the field is absent (here `osrmc_route_response_weight`
with the `NoWeight` record) and coordinate accessors return NaN (here
`osrmc_nearest_response_latitude` on a waypoint without `location`);
but the step-level weight-class accessors use the NaN sentinel:
`osrmc_route_response_step_weight` returns NaN, not `+Infinity`, when
the step lacks `weight`. -/
theorem claim6_sentinels_amended (route wp : JObject)
    (hw : lookupKey route "weight" = none) (hl : lookupKey wp "location" = none) :
    osrmc_route_response_weight (some [("routes", JValue.arr [JValue.obj route])]) true
      = CRes.ok (JDouble.inf, some [("routes", JValue.arr [JValue.obj route])])
          (some ⟨"NoWeight", "Weight not available for this route"⟩)
    ∧ osrmc_nearest_response_latitude (some [("waypoints", JValue.arr [JValue.obj wp])]) 0 true
      = CRes.ok (JDouble.nan, some [("waypoints", JValue.arr [JValue.obj wp])])
          (some ⟨"Exception", "map at: key not found"⟩)
    ∧ osrmc_route_response_step_weight
        (some [("routes", JValue.arr [JValue.obj [("legs", JValue.arr
          [JValue.obj [("steps", JValue.arr [JValue.obj route])]])]])]) 0 0 0 true
      = CRes.ok (JDouble.nan, some [("routes", JValue.arr [JValue.obj [("legs", JValue.arr
          [JValue.obj [("steps", JValue.arr [JValue.obj route])]])]])])
          (some ⟨"NoWeight", "Weight not available for this step"⟩) := by
  refine ⟨?_, ?_, ?_⟩
  · simp [osrmc_route_response_weight, bracketKey, lookupKey, getArr, vectorAt, getObj, hw]
  · simp [osrmc_nearest_response_latitude, cresWith, nearest_latitude_body, mapAt, lookupKey,
      getArr, vectorAt, getObj, hl, osrmc_error_from_exception, map_at_exn]
  · simp [osrmc_route_response_step_weight, bracketKey, lookupKey, getArr, vectorAt, getObj,
      mapAt, hw]

/-- C6 witness: the amended sentinel behavior at the empty route and
waypoint objects. -/
theorem claim6_sentinels_amended_witness :
    osrmc_route_response_weight (some [("routes", JValue.arr [JValue.obj []])]) true
      = CRes.ok (JDouble.inf, some [("routes", JValue.arr [JValue.obj []])])
          (some ⟨"NoWeight", "Weight not available for this route"⟩)
    ∧ osrmc_nearest_response_latitude (some [("waypoints", JValue.arr [JValue.obj []])]) 0 true
      = CRes.ok (JDouble.nan, some [("waypoints", JValue.arr [JValue.obj []])])
          (some ⟨"Exception", "map at: key not found"⟩)
    ∧ osrmc_route_response_step_weight
        (some [("routes", JValue.arr [JValue.obj [("legs", JValue.arr
          [JValue.obj [("steps", JValue.arr [JValue.obj []])]])]])]) 0 0 0 true
      = CRes.ok (JDouble.nan, some [("routes", JValue.arr [JValue.obj [("legs", JValue.arr
          [JValue.obj [("steps", JValue.arr [JValue.obj []])]])]])])
          (some ⟨"NoWeight", "Weight not available for this step"⟩) :=
  claim6_sentinels_amended [] [] rfl rfl

/-- C7: in a match response whose `tracepoints` array holds `Null` at an
in-range index i, the tracepoint field accessors at i report the
dedicated `NullTracepoint` record and return the NaN sentinel, and at
every other index their observable outcome is unaffected by the `Null`
at i. -/
theorem claim7_null_tracepoint_isolation (tps : List JValue) (i : Nat) (hi : i < tps.length) :
    osrmc_match_response_tracepoint_latitude
        (some [("tracepoints", JValue.arr (tps.set i JValue.null))]) i true
      = CRes.ok (JDouble.nan, some [("tracepoints", JValue.arr (tps.set i JValue.null))])
          (some ⟨"NullTracepoint", "Tracepoint was omitted (outlier)"⟩)
    ∧ osrmc_match_response_tracepoint_longitude
        (some [("tracepoints", JValue.arr (tps.set i JValue.null))]) i true
      = CRes.ok (JDouble.nan, some [("tracepoints", JValue.arr (tps.set i JValue.null))])
          (some ⟨"NullTracepoint", "Tracepoint was omitted (outlier)"⟩)
    ∧ ∀ j : Nat, j ≠ i →
        cresObs (osrmc_match_response_tracepoint_latitude
            (some [("tracepoints", JValue.arr (tps.set i JValue.null))]) j true)
          = cresObs (osrmc_match_response_tracepoint_latitude
              (some [("tracepoints", JValue.arr tps)]) j true)
        ∧ cresObs (osrmc_match_response_tracepoint_longitude
            (some [("tracepoints", JValue.arr (tps.set i JValue.null))]) j true)
          = cresObs (osrmc_match_response_tracepoint_longitude
              (some [("tracepoints", JValue.arr tps)]) j true) := by
  have hset : (tps.set i JValue.null)[i]? = some JValue.null :=
    List.getElem?_set_eq_of_lt JValue.null hi
  refine ⟨?_, ?_, ?_⟩
  · simp [osrmc_match_response_tracepoint_latitude, cresWith,
      tracepoint_latitude_body_null (tps.set i JValue.null) i hset]
  · simp [osrmc_match_response_tracepoint_longitude, cresWith,
      tracepoint_longitude_body_null (tps.set i JValue.null) i hset]
  · intro j hj
    have hlen : (tps.set i JValue.null).length = tps.length := List.length_set tps i JValue.null
    have hget : (tps.set i JValue.null)[j]? = tps[j]? := List.getElem?_set_ne (Ne.symm hj)
    constructor
    · simp only [osrmc_match_response_tracepoint_latitude]
      rw [tracepoint_latitude_body_congr _ tps j true hlen hget]
      simp [cresObs_cresWith]
    · simp only [osrmc_match_response_tracepoint_longitude]
      rw [tracepoint_longitude_body_congr _ tps j true hlen hget]
      simp [cresObs_cresWith]

/-- C7 witness: the single-slot tracepoints array set to `Null` at index
0 makes the latitude accessor report `NullTracepoint` with the NaN
sentinel. -/
theorem claim7_null_tracepoint_isolation_witness :
    osrmc_match_response_tracepoint_latitude
        (some [("tracepoints", JValue.arr [JValue.null])]) 0 true
      = CRes.ok (JDouble.nan, some [("tracepoints", JValue.arr [JValue.null])])
          (some ⟨"NullTracepoint", "Tracepoint was omitted (outlier)"⟩) :=
  (claim7_null_tracepoint_isolation [JValue.obj []] 0 (by decide)).1

/-- C9: the error adapter applied to an engine error object of the
expected shape — string `code` and `message` members — produces a record
holding exactly those strings, with an empty code replaced by `Unknown`;
applied to a wrong-shaped object (either member not a string, a missing
member defaulting to `Null` through `operator[]`) it produces a record
with code `Exception` and the raised exception text; and a null error
out-slot produces no record and no failure. -/
theorem claim9_error_adapter (json : JObject) :
    osrmc_error_from_json json false = none
    ∧ (∀ c m : String, lookupKey json "code" = some (JValue.str c) →
        lookupKey json "message" = some (JValue.str m) →
        osrmc_error_from_json json true
          = some ⟨if c = "" then "Unknown" else c, m⟩)
    ∧ (((∀ c : String, lookupKey json "code" ≠ some (JValue.str c))
        ∨ (∀ m : String, lookupKey json "message" ≠ some (JValue.str m))) →
        osrmc_error_from_json json true = some ⟨"Exception", "bad variant access"⟩) := by
  refine ⟨rfl, ?_, ?_⟩
  · intro c m hc hm
    simp [osrmc_error_from_json, bracketKey, hc, hm, getStr]
  · intro h
    cases hcode : lookupKey json "code" with
    | none =>
        simp [osrmc_error_from_json, bracketKey, hcode, getStr,
          osrmc_error_from_exception, bad_variant_access_exn]
    | some v =>
      cases v
      case str c =>
        rcases h with h | h
        · exact absurd hcode (h c)
        · cases hmsg : lookupKey json "message" with
          | none =>
              simp [osrmc_error_from_json, bracketKey, hcode, hmsg, getStr,
                osrmc_error_from_exception, bad_variant_access_exn]
          | some w =>
            cases w
            case str m => exact absurd hmsg (h m)
            all_goals
              simp [osrmc_error_from_json, bracketKey, hcode, hmsg, getStr,
                osrmc_error_from_exception, bad_variant_access_exn]
      all_goals
        simp [osrmc_error_from_json, bracketKey, hcode, getStr,
          osrmc_error_from_exception, bad_variant_access_exn]

/-- C9 witness: an empty `code` becomes `Unknown`; a numeric `code` is a
wrong shape and falls back to the `Exception` record; a null out-slot
yields no record. -/
theorem claim9_error_adapter_witness :
    osrmc_error_from_json [("code", JValue.str ""), ("message", JValue.str "no route found")] true
      = some ⟨"Unknown", "no route found"⟩
    ∧ osrmc_error_from_json [("code", JValue.num (JDouble.fin 3))] true
      = some ⟨"Exception", "bad variant access"⟩
    ∧ osrmc_error_from_json [] false = none := by
  refine ⟨?_, ?_, ?_⟩
  · exact (claim9_error_adapter _).2.1 "" "no route found" rfl rfl
  · exact (claim9_error_adapter _).2.2
      (Or.inl (fun c hcontra => by simp [lookupKey] at hcontra))
  · exact (claim9_error_adapter _).1

end Osrmc
